import Mathlib

/-!
Verification development for the ms-clipforge upload pipeline.

This file gives a shallow embedding of the core upload logic of the
repository and proves properties about it:

* `app/core/file_upload/user_uploader.py` — `upload_files`: batch
  validation, collision-safe persistence, batch aggregation, and the
  store-only vs dispatch modes;
* `app/core/file_upload/oss_uploader.py` and
  `app/services/oss_service.py` — the OSS upload path: health gating,
  single-file upload, multi-file batch upload, directory upload.

Python byte strings are modelled by their lengths (`Nat`), the local
filesystem inside the (fresh, per-batch) storage directory as an
association list from stored file names to on-disk sizes, and every
outbound HTTP interaction as an oracle argument describing the remote
side's behaviour, plus an explicit effect trace recording which calls
and writes were performed.
-/

namespace ClipForge

/-! ### Python `pathlib` string helpers -/

/-- Index of the last `'.'` in a character list (running index `i`,
accumulator `acc`), mirroring Python's `str.rfind('.')`. -/
def lastDotAux : List Char → Nat → Option Nat → Option Nat
  | [], _, acc => acc
  | c :: cs, i, acc => lastDotAux cs (i + 1) (if c = '.' then some i else acc)

def lastDot (cs : List Char) : Option Nat :=
  lastDotAux cs 0 none

/-- `pathlib.PurePath.suffix`: the extension of the final component,
`""` when the last dot is at position 0 (hidden file), at the very end,
or absent.  CPython: `i = name.rfind('.'); name[i:] if 0 < i < len(name) - 1
else ''`. -/
def pySuffix (name : String) : String :=
  let cs := name.toList
  match lastDot cs with
  | some i => if 0 < i ∧ i + 1 < cs.length then String.mk (cs.drop i) else ""
  | none => ""

/-- `pathlib.PurePath.stem`: the final component without its suffix. -/
def pyStem (name : String) : String :=
  let cs := name.toList
  match lastDot cs with
  | some i => if 0 < i ∧ i + 1 < cs.length then String.mk (cs.take i) else name
  | none => name

/-- `pathlib.PurePath.name` for a (normalised, slash-separated) path
string: the last path component, i.e. the characters after the last
`'/'`. -/
def pyName (s : String) : String :=
  String.mk ((s.toList.reverse.takeWhile (fun c => c ≠ '/')).reverse)

/-- `str.lower()` (ASCII case mapping suffices for the extension
comparisons in this code base). -/
def lowerStr (s : String) : String :=
  String.mk (s.toList.map Char.toLower)

/-- Python's truthiness test `not filename or filename.strip() == ""`
used by `upload_files` for the per-file empty-name check (a missing
filename is modelled by `""`): true exactly when every character is
whitespace. -/
def isBlankName (s : String) : Bool :=
  s.toList.all (fun c => c.isWhitespace)

/-! ### Filesystem model

The per-batch storage directory starts fresh (its name embeds a freshly
generated task id) and all writes of one batch land inside it, so the
relevant filesystem state is an association list from stored file names
to their on-disk byte sizes. -/

/-- Filesystem state of the batch storage directory. -/
def FS := List (String × Nat)

instance : DecidableEq FS := by unfold FS; infer_instance

/-- `path.exists()` for a name inside the batch directory. -/
def FS.existsName (fs : FS) (name : String) : Bool :=
  (List.lookup name fs).isSome

/-- `path.stat().st_size` observation: `none` when the file is absent. -/
def FS.sizeOf (fs : FS) (name : String) : Option Nat :=
  List.lookup name fs

/-- Outcome of `open(path, "wb"); f.write(contents)` followed by
whatever external interference happens before the verification `stat`:
the entry at `name` afterwards holds `written` bytes (`none` models the
file having vanished). -/
def FS.setFile (fs : FS) (name : String) (written : Option Nat) : FS :=
  let fs' := List.filter (fun p => p.1 != name) fs
  match written with
  | some n => (name, n) :: fs'
  | none => fs'

/-! ### Collision-safe name resolution

Embedding of the `while save_path.exists()` loop of `upload_files`
(user_uploader.py lines 99–111): starting from the original filename,
candidates `stem_1.ext`, `stem_2.ext`, … are tried in order; after the
counter passes 100 the loop raises `Exception("Too many duplicate
files")`. -/

/-- The `counter`-th collision candidate `f"{stem}_{counter}{ext}"`. -/
def candidateName (orig : String) (counter : Nat) : String :=
  pyStem orig ++ "_" ++ toString counter ++ pySuffix orig

/-- One-step unfolding of the collision loop.  `current` is the current
`save_path` name, `counter` the Python `counter` variable; `fuel`
bounds the recursion (the loop body runs at most 100 times before the
`counter > 100` guard fires, so fuel `101` is never exhausted). -/
def resolveAux (ex : String → Bool) (orig : String) :
    Nat → Nat → String → Option String
  | 0, _, _ => none
  | fuel + 1, counter, current =>
    if ex current then
      let next := candidateName orig counter
      if counter + 1 > 100 then none
      else resolveAux ex orig fuel (counter + 1) next
    else some current

/-- Collision resolution for one file: `some stored` when a free name
is found, `none` when the loop raises `Too many duplicate files`. -/
def resolveCollision (ex : String → Bool) (orig : String) : Option String :=
  resolveAux ex orig 101 1 orig

/-- Declarative description of the candidate search from counter `c`
on: the first `k ∈ [c, 100)` whose candidate name is free. -/
def firstFreeFrom (ex : String → Bool) (orig : String) (c : Nat) : Option String :=
  (List.find? (fun k => !ex (candidateName orig k)) (List.range' c (100 - c))).map
    (candidateName orig)

theorem resolveAux_eq_firstFreeFrom (ex : String → Bool) (orig : String) :
    ∀ fuel c current, 1 ≤ c → c ≤ 100 → c + fuel = 102 →
      resolveAux ex orig fuel c current =
        if ex current then firstFreeFrom ex orig c else some current := by
  intro fuel
  induction fuel with
  | zero => intro c current h1 h2 h3; omega
  | succ n ih =>
    intro c current h1 h2 h3
    by_cases hex : ex current
    · simp only [resolveAux, hex, if_pos, if_true]
      by_cases hc : c + 1 > 100
      · have hc100 : c = 100 := by omega
        subst hc100
        simp [firstFreeFrom]
      · have hcc : c ≤ 99 := by omega
        rw [if_neg hc, ih (c + 1) (candidateName orig c) (by omega) (by omega) (by omega)]
        have hrange : List.range' c (100 - c) =
            c :: List.range' (c + 1) (100 - (c + 1)) := by
          have : 100 - c = (100 - (c + 1)) + 1 := by omega
          rw [this, List.range'_succ]
        by_cases hfree : ex (candidateName orig c)
        · simp [firstFreeFrom, hrange, List.find?_cons, hfree]
        · simp [firstFreeFrom, hrange, List.find?_cons, hfree]
    · simp [resolveAux, hex]

theorem resolveCollision_eq (ex : String → Bool) (orig : String) :
    resolveCollision ex orig =
      if ex orig then firstFreeFrom ex orig 1 else some orig := by
  simpa using resolveAux_eq_firstFreeFrom ex orig 101 1 orig (by omega) (by omega) (by omega)

/-- A resolved name is free, and the original name is returned whenever
it is free. -/
theorem resolveCollision_free (ex : String → Bool) (orig r : String)
    (h : resolveCollision ex orig = some r) : ex r = false := by
  rw [resolveCollision_eq] at h
  by_cases hex : ex orig
  · rw [if_pos hex] at h
    unfold firstFreeFrom at h
    rcases Option.map_eq_some'.mp h with ⟨k, hk, hkr⟩
    have := List.find?_some hk
    subst hkr
    simpa using this
  · rw [if_neg hex] at h
    cases h
    simpa using hex

/-- The loop raises `Too many duplicate files` exactly when all 100
names it tries — the original and `stem_1.ext` … `stem_99.ext` — are
taken. -/
theorem resolveCollision_none_iff (ex : String → Bool) (orig : String) :
    resolveCollision ex orig = none ↔
      (ex orig = true ∧ ∀ k, 1 ≤ k → k ≤ 99 → ex (candidateName orig k) = true) := by
  rw [resolveCollision_eq]
  by_cases hex : ex orig
  · rw [if_pos hex]
    unfold firstFreeFrom
    rw [Option.map_eq_none', List.find?_eq_none]
    constructor
    · intro h
      refine ⟨hex, fun k h1 h99 => ?_⟩
      have hk : k ∈ List.range' 1 (100 - 1) := by
        rw [List.mem_range'_1]; omega
      have := h k hk
      simpa using this
    · intro ⟨_, h⟩ k hk
      rw [List.mem_range'_1] at hk
      simp [h k hk.1 (by omega)]
  · simp [if_neg hex, hex]

/-! ### `upload_files` (app/core/file_upload/user_uploader.py)

The batch upload entry point.  `UploadFile.read()` results are modelled
by their byte length; the outcome of the physical write of each file is
an oracle field `written` on the input (`some n` = the file holds `n`
bytes when the verification `stat` runs, `none` = the file is gone);
the task-queue submission is an oracle argument.  Effects performed on
the world (directory creation, file writes, the outbound submission)
are collected in a trace. -/

/-- The configuration values `upload_files` reads from `app.config`. -/
structure Config where
  allowedUsers : List String
  maxFileSize : Nat
  allowedExts : List String
deriving DecidableEq

/-- One element of the `files: List[UploadFile]` argument, together
with the write-outcome oracle for it. -/
structure InFile where
  filename : String
  /-- `len(contents)` after `await file.read()`. -/
  content : Nat
  /-- On-disk state at the chosen path when the post-write verification
  runs: `some n` = present with `n` bytes, `none` = missing. -/
  written : Option Nat
deriving DecidableEq

/-- The per-file error reasons recorded in `failed_files` (the Python
code stores the corresponding message strings). -/
inductive FileError where
  | emptyFilename
  | unsupportedType (ext : String)
  | tooLarge (sizeBytes : Nat)
  | tooManyDuplicates
  | writeVerificationFailed
deriving DecidableEq

/-- An entry of `saved_files` (`size_mb` is kept as the exact byte
count; rounding to MB happens only in the summary model). -/
structure SavedEntry where
  filename : String
  savedAs : String
  sizeBytes : Nat
deriving DecidableEq

/-- An entry of `failed_files`. -/
structure FailedEntry where
  filename : String
  error : FileError
deriving DecidableEq

/-- The single outcome one input file contributes. -/
inductive PerOutcome where
  | ok (e : SavedEntry)
  | bad (e : FailedEntry)
deriving DecidableEq

def PerOutcome.toSaved : PerOutcome → Option SavedEntry
  | .ok e => some e
  | .bad _ => none

def PerOutcome.toFailed : PerOutcome → Option FailedEntry
  | .ok _ => none
  | .bad e => some e

/-- Effects `upload_files` performs on the outside world. -/
inductive UEffect where
  | mkdirp (path : List String)
  | fileWrite (name : String)
  | submitTask (taskId : String)
deriving DecidableEq

/-- Body of the `for i, file in enumerate(files, 1)` loop for one file
(`idx` is the 1-based index): validation, collision resolution, write,
and post-write verification, in source order. -/
def processOne (cfg : Config) (fs : FS) (idx : Nat) (f : InFile) :
    PerOutcome × FS × List UEffect :=
  if isBlankName f.filename then
    (.bad ⟨"file_" ++ toString idx, .emptyFilename⟩, fs, [])
  else if cfg.allowedExts ≠ [] ∧ lowerStr (pySuffix f.filename) ∉ cfg.allowedExts then
    (.bad ⟨f.filename, .unsupportedType (lowerStr (pySuffix f.filename))⟩, fs, [])
  else if f.content > cfg.maxFileSize then
    (.bad ⟨f.filename, .tooLarge f.content⟩, fs, [])
  else
    match resolveCollision fs.existsName f.filename with
    | none => (.bad ⟨f.filename, .tooManyDuplicates⟩, fs, [])
    | some stored =>
      let fs' := fs.setFile stored f.written
      if f.written = some f.content then
        (.ok ⟨f.filename, stored, f.content⟩, fs', [.fileWrite stored])
      else
        -- verification failure: recorded as failed, no cleanup of fs'
        (.bad ⟨f.filename, .writeVerificationFailed⟩, fs', [.fileWrite stored])

/-- Mutable state of the batch loop: the directory contents, the two
outcome lists, `total_size`, and the effect trace. -/
structure LoopSt where
  fs : FS
  saved : List SavedEntry
  failed : List FailedEntry
  totalSize : Nat
  effs : List UEffect
deriving DecidableEq

def initLoopSt : LoopSt := ⟨[], [], [], 0, []⟩

def stepLoop (cfg : Config) (st : LoopSt) (idx : Nat) (f : InFile) : LoopSt :=
  match processOne cfg st.fs idx f with
  | (.ok e, fs', effs) =>
    ⟨fs', st.saved ++ [e], st.failed, st.totalSize + e.sizeBytes, st.effs ++ effs⟩
  | (.bad e, fs', effs) =>
    ⟨fs', st.saved, st.failed ++ [e], st.totalSize, st.effs ++ effs⟩

def runLoop (cfg : Config) : LoopSt → Nat → List InFile → LoopSt
  | st, _, [] => st
  | st, idx, f :: rest => runLoop cfg (stepLoop cfg st idx f) (idx + 1) rest

/-- `round(bytes / 1024 / 1024, 2)` in hundredths of a MB: nearest
hundredth, modelled with exact integer arithmetic (the binary-float
artifacts of Python's `round` are abstracted away). -/
def roundMB (bytes : Nat) : Nat :=
  (bytes * 100 + 524288) / 1048576

/-- The `status` expression used identically in both return branches:
`"success" if failed_count == 0 else "partial_success" if success_count
> 0 else "failed"`. -/
def statusOf (successCount failedCount : Nat) : String :=
  if failedCount = 0 then "success"
  else if successCount > 0 then "partial_success"
  else "failed"

/-- The `summary` sub-dict of the response. -/
structure Summary where
  totalFiles : Nat
  successful : Nat
  failed : Nat
  /-- `total_size_mb`, in hundredths of a MB. -/
  totalSizeMBh : Nat
deriving DecidableEq

/-- The response dict `upload_files` returns (in either mode it is
built from exactly these fields; no other key is present). -/
structure UploadResponse where
  taskId : String
  status : String
  summary : Summary
  savedFiles : List SavedEntry
  failedFiles : List FailedEntry
deriving DecidableEq

/-- `raise HTTPException(status_code=..., detail=...)`. -/
structure HTTPError where
  statusCode : Nat
  detail : String
deriving DecidableEq

instance {ε α : Type} [DecidableEq ε] [DecidableEq α] : DecidableEq (Except ε α) := by
  intro x y
  cases x <;> cases y
  case error.error a b =>
    exact if h : a = b then .isTrue (by rw [h]) else .isFalse (fun he => by cases he; exact h rfl)
  case error.ok a b => exact .isFalse (fun he => by cases he)
  case ok.error a b => exact .isFalse (fun he => by cases he)
  case ok.ok a b =>
    exact if h : a = b then .isTrue (by rw [h]) else .isFalse (fun he => by cases he; exact h rfl)

/-- The storage path construction (user_uploader.py lines 60–63):
dispatch mode uses `UPLOAD_DIR/username/task_option/video_type/
username_task_taskid`; store-only mode uses `UPLOAD_DIR/username/
task_id/username_task_taskid`. -/
def userTaskPath (uploadDir : List String) (username taskOption videoType taskId : String)
    (onlyFileUpload : Bool) : List String :=
  if onlyFileUpload then
    uploadDir ++ [username, taskId, username ++ "_task_" ++ taskId]
  else
    uploadDir ++ [username, taskOption, videoType, username ++ "_task_" ++ taskId]

/-- Modelled from the spec: the claimed store-only storage path
`<root>/<username>/<username>_task_<TaskId>` (the dispatch path with
only the category/subtype segments omitted), for comparison with the
source's `userTaskPath`. -/
def specStoreOnlyPath (uploadDir : List String) (username taskId : String) : List String :=
  uploadDir ++ [username, username ++ "_task_" ++ taskId]

/-- Assembling the result dict (identical literal in both modes). -/
def mkResponse (taskId : String) (totalFiles : Nat) (st : LoopSt) : UploadResponse :=
  { taskId := taskId
    status := statusOf st.saved.length st.failed.length
    summary :=
      { totalFiles := totalFiles
        successful := st.saved.length
        failed := st.failed.length
        totalSizeMBh := roundMB st.totalSize }
    savedFiles := st.saved
    failedFiles := st.failed }

/-- The `upload_files` coroutine.  `taskId` stands for the freshly
generated uuid-derived id; `submit` is the oracle for
`redisAPIService.submit_task` (`.error e` = network error or non-2xx —
`raise_for_status` — with message `e`; `.ok j` = the 2xx JSON).  The
second component is the trace of world effects in execution order.
Note the dispatch branch: the submission outcome is caught into the
local `task_result` variable but the returned dict never references
it. -/
def upload_files (cfg : Config) (uploadDir : List String) (files : List InFile)
    (taskOption videoType username : String) (onlyFileUpload : Bool)
    (taskId : String) (submit : Except String (List (String × String))) :
    Except HTTPError UploadResponse × List UEffect :=
  if username ∉ cfg.allowedUsers then
    (.error ⟨403, "Access denied. Invalid credentials."⟩, [])
  else if files = [] then
    (.error ⟨422, "No files provided"⟩, [])
  else if files.length > 50 then
    (.error ⟨422, "Too many files. Maximum 50 files per request"⟩, [])
  else
    let path := userTaskPath uploadDir username taskOption videoType taskId onlyFileUpload
    let st := runLoop cfg initLoopSt 1 files
    let resp := mkResponse taskId files.length st
    if onlyFileUpload then
      (.ok resp, .mkdirp path :: st.effs)
    else
      -- try: task_result = await redisAPIService.submit_task(...)
      -- except Exception as e: task_result = {"error": str(e)}
      let _task_result : Except String (List (String × String)) :=
        match submit with
        | .ok j => .ok j
        | .error e => .error e
      (.ok resp, .mkdirp path :: st.effs ++ [.submitTask taskId])

/-! ### OSS upload path (app/services/oss_service.py,
app/core/file_upload/oss_uploader.py)

Outbound HTTP calls are oracles: `Except String X` is `.error e` when
the call raises (network error, or `raise_for_status` on a non-2xx
response, with `e` the resulting message) and `.ok x` when it returns
JSON `x`.  Local file readability is a boolean per path.  The effect
trace records the health probes and upload requests actually sent. -/

namespace OSS

/-- `summary` object of an OSS result. -/
structure OSSSummary where
  total : Nat
  successful : Nat
  failed : Nat
deriving DecidableEq

/-- JSON result dicts returned along the OSS upload path (absent keys
are `none`). -/
structure OSSResult where
  success : Bool
  error : Option String := none
  fileName : Option String := none
  message : Option String := none
  summary : Option OSSSummary := none
deriving DecidableEq

/-- Outbound requests made by the OSS path. -/
inductive OEffect where
  | healthProbe
  | postSingle (fileName : String)
  | postMultiple (fileNames : List String)
deriving DecidableEq

/-- `OSSService.health_check`: returns the `/health` JSON, or
`{"status": "unhealthy", "error": str(e)}` when the probe raises. -/
def health_check (probe : Except String (List (String × String))) :
    List (String × String) :=
  match probe with
  | .ok j => j
  | .error e => [("status", "unhealthy"), ("error", e)]

/-- `OSSUploader.check_service_status`:
`health_status.get("status") == "healthy"`. -/
def check_service_status (probe : Except String (List (String × String))) : Bool :=
  List.lookup "status" (health_check probe) == some "healthy"

/-- `OSSService.upload_single_file`: missing local file short-circuits;
otherwise one `POST /upload/single`, with exceptions turned into a
`success:false` dict. -/
def upload_single_file (fileExists : Bool) (filePath : String)
    (remote : Except String OSSResult) : OSSResult × List OEffect :=
  if !fileExists then
    ({ success := false, error := some ("文件不存在: " ++ filePath),
       fileName := some (pyName filePath) }, [])
  else
    match remote with
    | .ok r => (r, [.postSingle (pyName filePath)])
    | .error e =>
      ({ success := false, error := some e,
         fileName := some (pyName filePath) }, [.postSingle (pyName filePath)])

/-- `OSSUploader.upload_file`: health gate, then delegate. -/
def upload_file (probe : Except String (List (String × String)))
    (fileExists : Bool) (filePath : String)
    (remote : Except String OSSResult) : OSSResult × List OEffect :=
  if check_service_status probe then
    let r := upload_single_file fileExists filePath remote
    (r.1, .healthProbe :: r.2)
  else
    ({ success := false, error := some "OSS服务不可用",
       fileName := some (pyName filePath) }, [.healthProbe])

/-- One entry of the `file_paths` argument of
`OSSService.upload_multiple_files`; `readOk` tells whether the local
file exists and can be read (`aiofiles.open`/`read` succeed). -/
structure MFile where
  path : String
  readOk : Bool
deriving DecidableEq

/-- Names of the files that are actually attached to the outbound
multi-part request (`valid_files` in the source). -/
def validNames (paths : List MFile) : List String :=
  (paths.filter (fun p => p.readOk)).map (fun p => pyName p.path)

/-- `OSSService.upload_multiple_files`: unreadable or missing files
are skipped; if nothing is readable a local failure summary counts all
inputs as failed; otherwise one `POST /upload/multiple` whose JSON is
returned verbatim, exceptions becoming a local all-failed summary. -/
def upload_multiple_files (paths : List MFile)
    (remote : Except String OSSResult) : OSSResult × List OEffect :=
  if paths = [] then
    ({ success := false, error := some "文件路径列表为空",
       summary := some ⟨0, 0, 0⟩ }, [])
  else
    if validNames paths = [] then
      ({ success := false, error := some "没有有效的文件可以上传",
         summary := some ⟨0, 0, paths.length⟩ }, [])
    else
      match remote with
      | .ok r => (r, [.postMultiple (validNames paths)])
      | .error e =>
        ({ success := false, error := some e,
           summary := some ⟨paths.length, 0, paths.length⟩ },
         [.postMultiple (validNames paths)])

/-- `OSSUploader.upload_files_batch`: health gate, then delegate. -/
def upload_files_batch (probe : Except String (List (String × String)))
    (paths : List MFile) (remote : Except String OSSResult) :
    OSSResult × List OEffect :=
  if check_service_status probe then
    let r := upload_multiple_files paths remote
    (r.1, .healthProbe :: r.2)
  else
    ({ success := false, error := some "OSS服务不可用",
       summary := some ⟨paths.length, 0, paths.length⟩ }, [.healthProbe])

/-- One entry of the recursive enumeration `directory_path.rglob('*')`,
in enumeration order. -/
structure DirEntry where
  path : String
  isFile : Bool
deriving DecidableEq

/-- The file-collection loop of `OSSUploader.upload_directory`: regular
files, and when the extension list is non-empty only those whose
lower-cased suffix is literally a member of it. -/
def collectFiles (entries : List DirEntry) (exts : List String) : List String :=
  (entries.filter
      (fun e => e.isFile && (decide (exts = []) || decide (lowerStr (pySuffix e.path) ∈ exts)))).map
    (fun e => e.path)

/-- Modelled from the spec: the selection the claim describes, with the
extension filter matched case-insensitively on both sides, for
comparison with the source's `collectFiles`. -/
def specSelectCaseInsensitive (entries : List DirEntry) (exts : List String) : List String :=
  (entries.filter
      (fun e => e.isFile && decide (lowerStr (pySuffix e.path) ∈ exts.map lowerStr))).map
    (fun e => e.path)

/-- `OSSUploader.upload_directory`: enumerate, filter, and delegate to
the batch path; an empty match list returns success with zero counts
(before any health probe).  `readable` is the read-outcome oracle for
the collected paths. -/
def upload_directory (dirOk : Bool) (entries : List DirEntry) (exts : List String)
    (readable : String → Bool) (probe : Except String (List (String × String)))
    (remote : Except String OSSResult) : OSSResult × List OEffect :=
  if !dirOk then
    ({ success := false, error := some "目录不存在或不是有效目录",
       summary := some ⟨0, 0, 0⟩ }, [])
  else
    if collectFiles entries exts = [] then
      ({ success := true, message := some "目录中没有找到匹配的文件",
         summary := some ⟨0, 0, 0⟩ }, [])
    else
      upload_files_batch probe
        ((collectFiles entries exts).map (fun p => ⟨p, readable p⟩)) remote

end OSS

/-! ### Helper lemmas -/

/-- `find?` on a consecutive range returns the first hit: everything
below it fails the predicate. -/
theorem find?_range'_min (p : Nat → Bool) :
    ∀ n s k, List.find? p (List.range' s n) = some k →
      ∀ j, s ≤ j → j < k → p j = false := by
  intro n
  induction n with
  | zero => intro s k h; simp at h
  | succ m ih =>
    intro s k h j hj hjk
    rw [List.range'_succ, List.find?_cons] at h
    cases hp : p s with
    | true =>
      rw [hp] at h
      simp only [Option.some.injEq] at h
      omega
    | false =>
      rw [hp] at h
      rcases Nat.eq_or_lt_of_le hj with heq | hlt
      · subst heq; exact hp
      · exact ih (s + 1) k h j hlt hjk

/-- A found element belongs to the list searched. -/
theorem mem_of_find?_range' (p : Nat → Bool) {n s k : Nat}
    (h : List.find? p (List.range' s n) = some k) : s ≤ k ∧ k < s + n := by
  rw [List.find?_eq_some] at h
  obtain ⟨_, as, bs, hsplit, _⟩ := h
  have : k ∈ List.range' s n := by rw [hsplit]; simp
  exact List.mem_range'_1.mp this

/-- Each per-file outcome is exactly one of saved or failed. -/
theorem perOutcome_split_length (l : List PerOutcome) :
    (l.filterMap PerOutcome.toSaved).length + (l.filterMap PerOutcome.toFailed).length
      = l.length := by
  induction l with
  | nil => simp
  | cons o rest ih =>
    cases o <;>
      simp only [List.filterMap_cons, PerOutcome.toSaved, PerOutcome.toFailed,
        List.length_cons, List.length] <;> omega

/-- The sequence of per-file outcomes the batch loop produces, one per
input file, in input order (a proof-side recomputation of the loop;
`fs` is threaded exactly as in `runLoop`). -/
def outcomesFrom (cfg : Config) : FS → Nat → List InFile → List PerOutcome
  | _, _, [] => []
  | fs, idx, f :: rest =>
    (processOne cfg fs idx f).1 ::
      outcomesFrom cfg (processOne cfg fs idx f).2.1 (idx + 1) rest

/-- Byte total of a list of saved entries. -/
def sumSizes (l : List SavedEntry) : Nat :=
  (l.map (fun e => e.sizeBytes)).sum

theorem outcomesFrom_length (cfg : Config) :
    ∀ files fs idx, (outcomesFrom cfg fs idx files).length = files.length := by
  intro files
  induction files with
  | nil => intro fs idx; rfl
  | cons f rest ih => intro fs idx; simp [outcomesFrom, ih]

/-- The loop state after the batch loop: the saved and failed lists are
the `filterMap` projections of the per-file outcome sequence (appended
to the incoming state), and `total_size` sums the sizes of the saved
entries only. -/
theorem runLoop_spec (cfg : Config) :
    ∀ files st idx,
      (runLoop cfg st idx files).saved
          = st.saved ++ (outcomesFrom cfg st.fs idx files).filterMap PerOutcome.toSaved ∧
        (runLoop cfg st idx files).failed
          = st.failed ++ (outcomesFrom cfg st.fs idx files).filterMap PerOutcome.toFailed ∧
        (runLoop cfg st idx files).totalSize
          = st.totalSize
              + sumSizes ((outcomesFrom cfg st.fs idx files).filterMap PerOutcome.toSaved) := by
  intro files
  induction files with
  | nil => intro st idx; simp [runLoop, outcomesFrom, sumSizes]
  | cons f rest ih =>
    intro st idx
    have hrl : runLoop cfg st idx (f :: rest)
        = runLoop cfg (stepLoop cfg st idx f) (idx + 1) rest := rfl
    obtain ⟨h1, h2, h3⟩ := ih (stepLoop cfg st idx f) (idx + 1)
    rcases hpo : processOne cfg st.fs idx f with ⟨o, fs', effs⟩
    have hout : outcomesFrom cfg st.fs idx (f :: rest)
        = o :: outcomesFrom cfg fs' (idx + 1) rest := by
      simp [outcomesFrom, hpo]
    cases o with
    | ok e =>
      have hstep : stepLoop cfg st idx f
          = ⟨fs', st.saved ++ [e], st.failed, st.totalSize + e.sizeBytes,
             st.effs ++ effs⟩ := by
        simp [stepLoop, hpo]
      rw [hstep] at h1 h2 h3
      refine ⟨?_, ?_, ?_⟩
      · rw [hrl, hstep, h1, hout]
        simp [PerOutcome.toSaved, List.filterMap_cons]
      · rw [hrl, hstep, h2, hout]
        simp [PerOutcome.toSaved, PerOutcome.toFailed, List.filterMap_cons]
      · rw [hrl, hstep, h3, hout]
        simp only [List.filterMap_cons, PerOutcome.toSaved, sumSizes, List.map_cons,
          List.sum_cons]
        omega
    | bad e =>
      have hstep : stepLoop cfg st idx f
          = ⟨fs', st.saved, st.failed ++ [e], st.totalSize, st.effs ++ effs⟩ := by
        simp [stepLoop, hpo]
      rw [hstep] at h1 h2 h3
      refine ⟨?_, ?_, ?_⟩
      · rw [hrl, hstep, h1, hout]
        simp [PerOutcome.toSaved, List.filterMap_cons]
      · rw [hrl, hstep, h2, hout]
        simp [PerOutcome.toSaved, PerOutcome.toFailed, List.filterMap_cons]
      · rw [hrl, hstep, h3, hout]
        simp [List.filterMap_cons, PerOutcome.toSaved, sumSizes]

/-- The status expression, characterised. -/
theorem statusOf_spec (s f : Nat) :
    (statusOf s f = "success" ↔ f = 0) ∧
      (statusOf s f = "failed" ↔ s = 0 ∧ 0 < f) ∧
      (statusOf s f = "partial_success" ↔ 0 < s ∧ 0 < f) := by
  unfold statusOf
  split_ifs with hf hs <;> refine ⟨?_, ?_, ?_⟩ <;> simp_all <;> omega

/-- On an accepted batch, `upload_files` returns the aggregated
response and the effect trace `mkdir; writes; [submit]`. -/
theorem upload_files_ok (cfg : Config) (uploadDir : List String) (files : List InFile)
    (taskOption videoType username : String) (onlyFileUpload : Bool) (taskId : String)
    (submit : Except String (List (String × String)))
    (hu : username ∈ cfg.allowedUsers) (hne : files ≠ []) (h50 : files.length ≤ 50) :
    upload_files cfg uploadDir files taskOption videoType username onlyFileUpload taskId submit
      = (.ok (mkResponse taskId files.length (runLoop cfg initLoopSt 1 files)),
         .mkdirp (userTaskPath uploadDir username taskOption videoType taskId onlyFileUpload)
           :: ((runLoop cfg initLoopSt 1 files).effs
                ++ if onlyFileUpload then [] else [.submitTask taskId])) := by
  unfold upload_files
  rw [if_neg (by simp [hu]), if_neg hne, if_neg (by omega)]
  cases onlyFileUpload <;> simp

/-! ### Claim theorems -/

/-- C1: for every processed batch, in both store-only and dispatch
modes, the returned `status` is `"success"` iff the failed count is 0,
`"failed"` iff the successful count is 0 and the failed count is
positive, and `"partial_success"` otherwise. -/
theorem upload_files_status_iff (cfg : Config) (uploadDir : List String)
    (files : List InFile) (taskOption videoType username : String)
    (onlyFileUpload : Bool) (taskId : String)
    (submit : Except String (List (String × String))) (resp : UploadResponse)
    (h : (upload_files cfg uploadDir files taskOption videoType username
            onlyFileUpload taskId submit).1 = .ok resp) :
    (resp.status = "success" ↔ resp.summary.failed = 0) ∧
      (resp.status = "failed" ↔ resp.summary.successful = 0 ∧ 0 < resp.summary.failed) ∧
      (resp.status = "partial_success" ↔
        0 < resp.summary.successful ∧ 0 < resp.summary.failed) := by
  by_cases hu : username ∈ cfg.allowedUsers
  · by_cases hne : files = []
    · unfold upload_files at h
      rw [if_neg (by simp [hu]), if_pos hne] at h
      simp at h
    · by_cases h50 : files.length ≤ 50
      · rw [upload_files_ok cfg uploadDir files taskOption videoType username
          onlyFileUpload taskId submit hu hne h50] at h
        have hr : mkResponse taskId files.length (runLoop cfg initLoopSt 1 files)
            = resp := by simpa using h
        subst hr
        simp only [mkResponse]
        exact statusOf_spec _ _
      · unfold upload_files at h
        rw [if_neg (by simp [hu]), if_neg hne, if_pos (by omega)] at h
        simp at h
  · unfold upload_files at h
    rw [if_pos hu] at h
    simp at h

/-- Witness for C1: a concrete one-file store-only batch; its response
has status `"success"` and failed count 0. -/
theorem upload_files_status_iff_witness :
    ((⟨"t", "success", ⟨1, 1, 0, 0⟩, [⟨"a.txt", "a.txt", 3⟩], []⟩ : UploadResponse).status
        = "success"
      ↔ (⟨"t", "success", ⟨1, 1, 0, 0⟩, [⟨"a.txt", "a.txt", 3⟩], []⟩ :
          UploadResponse).summary.failed = 0) :=
  (upload_files_status_iff ⟨["u"], 100, []⟩ [] [⟨"a.txt", 3, some 3⟩] "o" "v" "u"
    true "t" (.ok []) _ (by decide)).1

/-- C3 counterexample: in store-only mode the directory path is NOT
`<root>/<username>/<username>_task_<TaskId>`: the source inserts an
extra `<TaskId>` segment (`UPLOAD_DIR / username / task_id /
"_".join([username, "task", task_id])`, user_uploader.py line 61). -/
theorem storeOnly_path_has_extra_taskId_segment :
    userTaskPath [] "alice" "cat" "sub" "t1" true = ["alice", "t1", "alice_task_t1"]
      ∧ userTaskPath [] "alice" "cat" "sub" "t1" true ≠ specStoreOnlyPath [] "alice" "t1" := by
  decide

/-- C3 (amended): the dispatch-mode path is
`<root>/<username>/<category>/<subtype>/<username>_task_<TaskId>`, and
the store-only path replaces the category/subtype segments by a single
`<TaskId>` segment (rather than merely omitting them):
`<root>/<username>/<TaskId>/<username>_task_<TaskId>`. -/
theorem userTaskPath_shape (uploadDir : List String) (u c s t : String) :
    userTaskPath uploadDir u c s t false
        = uploadDir ++ [u] ++ [c, s] ++ [u ++ "_task_" ++ t]
      ∧ userTaskPath uploadDir u c s t true
        = uploadDir ++ [u] ++ [t] ++ [u ++ "_task_" ++ t] := by
  constructor <;> simp [userTaskPath]

/-- C5: a batch from a username outside the allow-list is rejected with
HTTP 403 and the effect trace is empty: no per-batch directory is
created and no file is written. -/
theorem upload_files_forbidden_no_side_effects (cfg : Config) (uploadDir : List String)
    (files : List InFile) (taskOption videoType username : String)
    (onlyFileUpload : Bool) (taskId : String)
    (submit : Except String (List (String × String)))
    (hu : username ∉ cfg.allowedUsers) :
    upload_files cfg uploadDir files taskOption videoType username onlyFileUpload
        taskId submit
      = (.error ⟨403, "Access denied. Invalid credentials."⟩, []) := by
  unfold upload_files
  rw [if_pos hu]

/-- Witness for C5: user "eve" against the default allow-list. -/
theorem upload_files_forbidden_no_side_effects_witness :
    upload_files ⟨["rkwork", "muzi"], 100, []⟩ [] [⟨"a.txt", 3, some 3⟩] "o" "v"
        "eve" false "t" (.ok [])
      = (.error ⟨403, "Access denied. Invalid credentials."⟩, []) :=
  upload_files_forbidden_no_side_effects _ _ _ _ _ _ _ _ _ (by decide)

/-- C2 counterexample: in dispatch mode the value returned to the HTTP
caller is byte-for-byte identical whether the task-queue submission
fails or succeeds — the caught failure (`task_result = {"error":
str(e)}`) is a dead local variable, so no structured error object is
embedded in the response. -/
theorem submit_error_never_reaches_response :
    upload_files ⟨["u"], 100, []⟩ [] [⟨"a.txt", 3, some 3⟩] "opt" "vt" "u" false
        "t1" (.error "Connection refused")
      = upload_files ⟨["u"], 100, []⟩ [] [⟨"a.txt", 3, some 3⟩] "opt" "vt" "u" false
        "t1" (.ok [("status", "queued")]) := rfl

/-- C2 (amended): when the outbound task-queue submission fails,
`upload_files` does not raise to the HTTP caller — the batch report is
returned as a 2xx response with its original status (computed from the
per-file counts) — but the captured error object is only stored in a
local variable and is NOT embedded in the response, which is identical
to the one returned when the submission succeeds. -/
theorem upload_files_dispatch_failure_graceful (cfg : Config) (uploadDir : List String)
    (files : List InFile) (taskOption videoType username taskId e : String)
    (j : List (String × String))
    (hu : username ∈ cfg.allowedUsers) (hne : files ≠ []) (h50 : files.length ≤ 50) :
    (upload_files cfg uploadDir files taskOption videoType username false taskId
          (.error e)).1
        = .ok (mkResponse taskId files.length (runLoop cfg initLoopSt 1 files))
      ∧ upload_files cfg uploadDir files taskOption videoType username false taskId
          (.error e)
        = upload_files cfg uploadDir files taskOption videoType username false taskId
          (.ok j)
      ∧ (mkResponse taskId files.length (runLoop cfg initLoopSt 1 files)).status
        = statusOf (runLoop cfg initLoopSt 1 files).saved.length
            (runLoop cfg initLoopSt 1 files).failed.length := by
  refine ⟨?_, rfl, rfl⟩
  rw [upload_files_ok _ _ _ _ _ _ _ _ _ hu hne h50]

/-- Witness for C2 (amended), at a concrete one-file batch. -/
theorem upload_files_dispatch_failure_graceful_witness :
    (upload_files ⟨["u"], 100, []⟩ [] [⟨"a.txt", 3, some 3⟩] "o" "v" "u" false "t"
          (.error "boom")).1
        = .ok (mkResponse "t" 1 (runLoop ⟨["u"], 100, []⟩ initLoopSt 1
            [⟨"a.txt", 3, some 3⟩]))
      ∧ upload_files ⟨["u"], 100, []⟩ [] [⟨"a.txt", 3, some 3⟩] "o" "v" "u" false "t"
          (.error "boom")
        = upload_files ⟨["u"], 100, []⟩ [] [⟨"a.txt", 3, some 3⟩] "o" "v" "u" false "t"
          (.ok [])
      ∧ (mkResponse "t" 1 (runLoop ⟨["u"], 100, []⟩ initLoopSt 1
            [⟨"a.txt", 3, some 3⟩])).status
        = statusOf (runLoop ⟨["u"], 100, []⟩ initLoopSt 1
              [⟨"a.txt", 3, some 3⟩]).saved.length
            (runLoop ⟨["u"], 100, []⟩ initLoopSt 1 [⟨"a.txt", 3, some 3⟩]).failed.length :=
  upload_files_dispatch_failure_graceful ⟨["u"], 100, []⟩ [] [⟨"a.txt", 3, some 3⟩]
    "o" "v" "u" "t" "boom" [] (by decide) (by decide) (by decide)

/-- C9: on every accepted batch of `N` files (`1 ≤ N ≤ 50`), each input
file contributes exactly one outcome (the outcome sequence has length
`N` and the saved/failed lists are its two `filterMap` projections, so
both preserve input order), `total_files = N = successful + failed`,
and `total_size_mb` is the rounded byte total of the saved files
only. -/
theorem upload_files_batch_aggregation (cfg : Config) (uploadDir : List String)
    (files : List InFile) (taskOption videoType username : String)
    (onlyFileUpload : Bool) (taskId : String)
    (submit : Except String (List (String × String))) (resp : UploadResponse)
    (h1 : 1 ≤ files.length) (h50 : files.length ≤ 50)
    (hu : username ∈ cfg.allowedUsers)
    (h : (upload_files cfg uploadDir files taskOption videoType username
            onlyFileUpload taskId submit).1 = .ok resp) :
    resp.summary.totalFiles = files.length
      ∧ (outcomesFrom cfg ([] : FS) 1 files).length = files.length
      ∧ resp.savedFiles = (outcomesFrom cfg ([] : FS) 1 files).filterMap PerOutcome.toSaved
      ∧ resp.failedFiles = (outcomesFrom cfg ([] : FS) 1 files).filterMap PerOutcome.toFailed
      ∧ resp.summary.successful = resp.savedFiles.length
      ∧ resp.summary.failed = resp.failedFiles.length
      ∧ resp.summary.successful + resp.summary.failed = files.length
      ∧ resp.summary.totalSizeMBh = roundMB (sumSizes resp.savedFiles) := by
  have hne : files ≠ [] := by
    intro hf; rw [hf] at h1; simp at h1
  rw [upload_files_ok cfg uploadDir files taskOption videoType username
    onlyFileUpload taskId submit hu hne h50] at h
  have hr : mkResponse taskId files.length (runLoop cfg initLoopSt 1 files) = resp := by
    simpa using h
  subst hr
  obtain ⟨hs, hf, ht⟩ := runLoop_spec cfg files initLoopSt 1
  have e0 : initLoopSt.fs = ([] : FS) := rfl
  have e1 : initLoopSt.saved = [] := rfl
  have e2 : initLoopSt.failed = [] := rfl
  have e3 : initLoopSt.totalSize = 0 := rfl
  simp only [e0, e1, e2, e3, List.nil_append, Nat.zero_add] at hs hf ht
  have hlen := outcomesFrom_length cfg files ([] : FS) 1
  have hsplit := perOutcome_split_length (outcomesFrom cfg ([] : FS) 1 files)
  refine ⟨rfl, hlen, ?_, ?_, rfl, rfl, ?_, ?_⟩
  · simpa [mkResponse] using hs
  · simpa [mkResponse] using hf
  · simp only [mkResponse, hs, hf]
    omega
  · simp only [mkResponse]
    rw [ht, hs]

/-- Witness for C9: two files with the same name; the second is
collision-renamed; counts 2 = 2 + 0. -/
theorem upload_files_batch_aggregation_witness :
    (⟨"t", "success", ⟨2, 2, 0, 0⟩,
        [⟨"a.txt", "a.txt", 3⟩, ⟨"a.txt", "a_1.txt", 4⟩], []⟩ :
      UploadResponse).summary.successful
      + (⟨"t", "success", ⟨2, 2, 0, 0⟩,
          [⟨"a.txt", "a.txt", 3⟩, ⟨"a.txt", "a_1.txt", 4⟩], []⟩ :
        UploadResponse).summary.failed
      = [(⟨"a.txt", 3, some 3⟩ : InFile), ⟨"a.txt", 4, some 4⟩].length :=
  (upload_files_batch_aggregation ⟨["u"], 100, []⟩ []
    [⟨"a.txt", 3, some 3⟩, ⟨"a.txt", 4, some 4⟩] "o" "v" "u" true "t" (.ok []) _
    (by decide) (by decide) (by decide) (by decide)).2.2.2.2.2.2.1

/-- The per-file write step for a file that passes validation, reduced
to the collision match (shared by the C4 and C10 theorems). -/
theorem processOne_write_eq (cfg : Config) (fs : FS) (idx : Nat) (f : InFile)
    (hname : isBlankName f.filename = false)
    (hext : cfg.allowedExts = [] ∨ lowerStr (pySuffix f.filename) ∈ cfg.allowedExts)
    (hsize : f.content ≤ cfg.maxFileSize) :
    processOne cfg fs idx f
      = match resolveCollision fs.existsName f.filename with
        | none => (.bad ⟨f.filename, .tooManyDuplicates⟩, fs, [])
        | some stored =>
          if f.written = some f.content then
            (.ok ⟨f.filename, stored, f.content⟩, fs.setFile stored f.written,
             [.fileWrite stored])
          else
            (.bad ⟨f.filename, .writeVerificationFailed⟩, fs.setFile stored f.written,
             [.fileWrite stored]) := by
  unfold processOne
  rw [if_neg (by simp [hname]),
    if_neg (by rcases hext with h | h
               · exact fun hc => hc.1 h
               · exact fun hc => hc.2 h),
    if_neg (by omega)]

/-- Specialisation of `processOne_write_eq`: a free name was found and
the write verification passes. -/
theorem processOne_write_some (cfg : Config) (fs : FS) (idx : Nat) (f : InFile)
    (stored : String)
    (hname : isBlankName f.filename = false)
    (hext : cfg.allowedExts = [] ∨ lowerStr (pySuffix f.filename) ∈ cfg.allowedExts)
    (hsize : f.content ≤ cfg.maxFileSize)
    (hst : resolveCollision fs.existsName f.filename = some stored)
    (hw : f.written = some f.content) :
    processOne cfg fs idx f
      = (.ok ⟨f.filename, stored, f.content⟩, fs.setFile stored f.written,
         [.fileWrite stored]) := by
  rw [processOne_write_eq cfg fs idx f hname hext hsize, hst]
  exact if_pos hw

/-- Specialisation of `processOne_write_eq`: a free name was found but
the write verification fails. -/
theorem processOne_write_bad (cfg : Config) (fs : FS) (idx : Nat) (f : InFile)
    (stored : String)
    (hname : isBlankName f.filename = false)
    (hext : cfg.allowedExts = [] ∨ lowerStr (pySuffix f.filename) ∈ cfg.allowedExts)
    (hsize : f.content ≤ cfg.maxFileSize)
    (hst : resolveCollision fs.existsName f.filename = some stored)
    (hw : f.written ≠ some f.content) :
    processOne cfg fs idx f
      = (.bad ⟨f.filename, .writeVerificationFailed⟩, fs.setFile stored f.written,
         [.fileWrite stored]) := by
  rw [processOne_write_eq cfg fs idx f hname hext hsize, hst]
  exact if_neg hw

/-- Specialisation of `processOne_write_eq`: the collision loop gave
up. -/
theorem processOne_write_none (cfg : Config) (fs : FS) (idx : Nat) (f : InFile)
    (hname : isBlankName f.filename = false)
    (hext : cfg.allowedExts = [] ∨ lowerStr (pySuffix f.filename) ∈ cfg.allowedExts)
    (hsize : f.content ≤ cfg.maxFileSize)
    (hst : resolveCollision fs.existsName f.filename = none) :
    processOne cfg fs idx f = (.bad ⟨f.filename, .tooManyDuplicates⟩, fs, []) := by
  rw [processOne_write_eq cfg fs idx f hname hext hsize, hst]

/-- C4: for a validated file whose physical write succeeds, the writer
stores at the original name when it is free, otherwise at the first
free numeric-suffix candidate `stem_k.ext` (all candidates below `k`
collide), the report's `filename` field keeps the original name
unchanged, and the `Too many duplicate files` error occurs exactly when
all 100 consecutively tried candidates — the original name and
`stem_1.ext` … `stem_99.ext` — collide. -/
theorem collision_writer_spec (cfg : Config) (fs : FS) (idx : Nat) (f : InFile)
    (hname : isBlankName f.filename = false)
    (hext : cfg.allowedExts = [] ∨ lowerStr (pySuffix f.filename) ∈ cfg.allowedExts)
    (hsize : f.content ≤ cfg.maxFileSize)
    (hwrite : f.written = some f.content) :
    (∀ stored, resolveCollision fs.existsName f.filename = some stored →
        processOne cfg fs idx f
            = (.ok ⟨f.filename, stored, f.content⟩, fs.setFile stored (some f.content),
               [.fileWrite stored])
          ∧ fs.existsName stored = false
          ∧ (fs.existsName f.filename = false → stored = f.filename)
          ∧ (fs.existsName f.filename = true →
              ∃ k, 1 ≤ k ∧ k ≤ 99 ∧ stored = candidateName f.filename k
                ∧ ∀ j, 1 ≤ j → j < k →
                    fs.existsName (candidateName f.filename j) = true))
      ∧ (processOne cfg fs idx f = (.bad ⟨f.filename, .tooManyDuplicates⟩, fs, [])
          ↔ fs.existsName f.filename = true
            ∧ ∀ k, 1 ≤ k → k ≤ 99 →
                fs.existsName (candidateName f.filename k) = true) := by
  constructor
  · intro stored hst
    have heq := processOne_write_some cfg fs idx f stored hname hext hsize hst hwrite
    rw [hwrite] at heq
    refine ⟨heq, resolveCollision_free _ _ _ hst, ?_, ?_⟩
    · intro hfree
      rw [resolveCollision_eq, if_neg (by simp [hfree])] at hst
      exact (Option.some.injEq _ _ ▸ hst).symm
    · intro hexo
      rw [resolveCollision_eq, if_pos hexo] at hst
      unfold firstFreeFrom at hst
      rcases Option.map_eq_some'.mp hst with ⟨k, hk, hkr⟩
      have hmem := mem_of_find?_range' (fun k => !fs.existsName (candidateName f.filename k)) hk
      refine ⟨k, by omega, by omega, hkr.symm, ?_⟩
      intro j h1j hjk
      have := find?_range'_min _ _ _ _ hk j h1j hjk
      simpa using this
  · constructor
    · intro h
      cases hr : resolveCollision fs.existsName f.filename with
      | none => exact (resolveCollision_none_iff _ _).mp hr
      | some s =>
        rw [processOne_write_some cfg fs idx f s hname hext hsize hr hwrite] at h
        simp at h
    · intro ⟨hexo, hall⟩
      exact processOne_write_none cfg fs idx f hname hext hsize
        ((resolveCollision_none_iff fs.existsName f.filename).mpr ⟨hexo, hall⟩)

/-- Witness for C4: `a.txt` already exists, the file is stored as
`a_1.txt`, the report keeps the original name, and `a_1.txt` was
free. -/
theorem collision_writer_spec_witness :
    processOne ⟨["u"], 100, []⟩ [("a.txt", 5)] 1 ⟨"a.txt", 3, some 3⟩
        = (.ok ⟨"a.txt", "a_1.txt", 3⟩, [("a_1.txt", 3), ("a.txt", 5)],
           [.fileWrite "a_1.txt"])
      ∧ FS.existsName [("a.txt", 5)] "a_1.txt" = false := by
  have h := (collision_writer_spec ⟨["u"], 100, []⟩ [("a.txt", 5)] 1 ⟨"a.txt", 3, some 3⟩
    (by decide) (Or.inl rfl) (by decide) rfl).1 "a_1.txt" (by decide)
  exact ⟨h.1.trans (by decide), h.2.1⟩

/-- C10: when the post-write size verification fails for a validated
file (the bytes on disk at the collision-resolved path differ from the
in-memory length, or the file vanished), the file is recorded in the
failed list with the verification error, the error branch performs no
cleanup — the resulting directory state is exactly the post-write state
`fs.setFile stored f.written`, so partially written bytes remain on
disk — and a later file with the same name collision-renames around the
leftover (it never resolves to `stored` again). -/
theorem write_verification_failure_no_cleanup (cfg : Config) (fs : FS) (idx : Nat)
    (f : InFile) (stored : String)
    (hname : isBlankName f.filename = false)
    (hext : cfg.allowedExts = [] ∨ lowerStr (pySuffix f.filename) ∈ cfg.allowedExts)
    (hsize : f.content ≤ cfg.maxFileSize)
    (hres : resolveCollision fs.existsName f.filename = some stored)
    (hbad : f.written ≠ some f.content) :
    processOne cfg fs idx f
        = (.bad ⟨f.filename, .writeVerificationFailed⟩, fs.setFile stored f.written,
           [.fileWrite stored])
      ∧ (∀ w, f.written = some w →
          (fs.setFile stored f.written).sizeOf stored = some w)
      ∧ (∀ w, f.written = some w → ∀ r,
          resolveCollision (fs.setFile stored f.written).existsName f.filename
              = some r → r ≠ stored) := by
  refine ⟨processOne_write_bad cfg fs idx f stored hname hext hsize hres hbad, ?_, ?_⟩
  · intro w hw
    rw [hw]
    simp [FS.setFile, FS.sizeOf, List.lookup]
  · intro w hw r hr hcontra
    have hfree := resolveCollision_free _ _ _ hr
    rw [hcontra, hw] at hfree
    simp [FS.setFile, FS.existsName, List.lookup] at hfree

/-- Witness for C10: a 10-byte file of which only 4 bytes survive on
disk: failed outcome, the 4-byte leftover `a.txt` remains, and the next
`a.txt` resolves to `a_1.txt`, not `a.txt`. -/
theorem write_verification_failure_no_cleanup_witness :
    processOne ⟨["u"], 100, []⟩ [] 1 ⟨"a.txt", 10, some 4⟩
        = (.bad ⟨"a.txt", .writeVerificationFailed⟩, [("a.txt", 4)], [.fileWrite "a.txt"])
      ∧ FS.sizeOf [("a.txt", 4)] "a.txt" = some 4
      ∧ "a_1.txt" ≠ "a.txt" := by
  have h := write_verification_failure_no_cleanup ⟨["u"], 100, []⟩ [] 1
    ⟨"a.txt", 10, some 4⟩ "a.txt" (by decide) (Or.inl rfl) (by decide) (by decide)
    (by decide)
  exact ⟨h.1.trans (by decide), h.2.1 4 rfl, h.2.2 4 rfl "a_1.txt" (by decide)⟩

/-- C7: whenever the health probe does not report status `"healthy"`
(including when the probe itself raises), `upload_file` returns the
`success:false` / `"OSS服务不可用"` result naming the input path's
basename, and the effect trace contains only the probe — no request is
made to the upload endpoint. -/
theorem oss_upload_file_unhealthy_short_circuit
    (probe : Except String (List (String × String))) (fileExists : Bool)
    (filePath : String) (remote : Except String OSS.OSSResult)
    (h : List.lookup "status" (OSS.health_check probe) ≠ some "healthy") :
    OSS.upload_file probe fileExists filePath remote
      = ({ success := false, error := some "OSS服务不可用",
           fileName := some (pyName filePath) }, [.healthProbe]) := by
  have hc : OSS.check_service_status probe = false := by
    unfold OSS.check_service_status
    simpa using h
  unfold OSS.upload_file
  rw [hc]
  simp

/-- Witness for C7: a probe that raises (`timeout`); the upload oracle
is never consulted. -/
theorem oss_upload_file_unhealthy_short_circuit_witness :
    OSS.upload_file (.error "timeout") true "/x/y.mp4" (.ok { success := true })
      = ({ success := false, error := some "OSS服务不可用",
           fileName := some "y.mp4" }, [.healthProbe]) :=
  (oss_upload_file_unhealthy_short_circuit (.error "timeout") true "/x/y.mp4"
    (.ok { success := true }) (by decide)).trans (by decide)

/-- C6 counterexample: a two-file batch where `/d/b.txt` is unreadable
and `/d/a.txt` is readable.  The unreadable file is excluded from the
outbound request (only `a.txt` is posted), but the summary returned to
the caller is the upstream response's verbatim — its `failed` tally is
0 and does NOT count the skipped file, contrary to the claim. -/
theorem oss_multi_skipped_not_counted_in_mixed_summary :
    OSS.upload_multiple_files [⟨"/d/a.txt", true⟩, ⟨"/d/b.txt", false⟩]
        (.ok { success := true, summary := some ⟨1, 1, 0⟩ })
      = ({ success := true, summary := some ⟨1, 1, 0⟩ }, [.postMultiple ["a.txt"]])
      ∧ ([(⟨"/d/a.txt", true⟩ : OSS.MFile), ⟨"/d/b.txt", false⟩].filter
          (fun p => !p.readOk)).length = 1 := by
  decide

/-- C6 (amended): unreadable or missing files are excluded from the
outbound multi-part request entirely (every request posted carries
exactly the readable files' names); they count toward the `failed`
tally only in the summaries the service builds locally — when no file
is readable, or when the outbound call itself fails — while in the
mixed case with at least one readable file the returned summary is the
upstream response's and does not include the skipped files. -/
theorem oss_multi_skipped_files (paths : List OSS.MFile)
    (remote : Except String OSS.OSSResult) (hne : paths ≠ []) :
    (∀ eff ∈ (OSS.upload_multiple_files paths remote).2,
        eff = OSS.OEffect.postMultiple (OSS.validNames paths))
      ∧ (OSS.validNames paths = [] →
          OSS.upload_multiple_files paths remote
            = ({ success := false, error := some "没有有效的文件可以上传",
                 summary := some ⟨0, 0, paths.length⟩ }, []))
      ∧ (∀ e, remote = .error e → OSS.validNames paths ≠ [] →
          OSS.upload_multiple_files paths remote
            = ({ success := false, error := some e,
                 summary := some ⟨paths.length, 0, paths.length⟩ },
               [.postMultiple (OSS.validNames paths)]))
      ∧ (∀ r, remote = .ok r → OSS.validNames paths ≠ [] →
          OSS.upload_multiple_files paths remote
            = (r, [.postMultiple (OSS.validNames paths)])) := by
  unfold OSS.upload_multiple_files
  rw [if_neg hne]
  by_cases hv : OSS.validNames paths = []
  · rw [if_pos hv]
    refine ⟨by simp, fun _ => rfl, ?_, ?_⟩
    · intro e _ hv'; exact absurd hv hv'
    · intro r _ hv'; exact absurd hv hv'
  · rw [if_neg hv]
    cases remote with
    | ok r =>
      refine ⟨by simp, fun hv' => absurd hv' hv, ?_, ?_⟩
      · intro e he; cases he
      · intro r' hr _; cases hr; rfl
    | error e =>
      refine ⟨by simp, fun hv' => absurd hv' hv, ?_, ?_⟩
      · intro e' he _; cases he; rfl
      · intro r' hr; cases hr

/-- Witness for C6 (amended): one readable file; the upstream result is
passed through and the request carries exactly that file. -/
theorem oss_multi_skipped_files_witness :
    OSS.upload_multiple_files [⟨"/d/a.txt", true⟩]
        (.ok { success := true, summary := some ⟨1, 1, 0⟩ })
      = ({ success := true, summary := some ⟨1, 1, 0⟩ }, [.postMultiple ["a.txt"]]) :=
  ((oss_multi_skipped_files [⟨"/d/a.txt", true⟩]
      (.ok { success := true, summary := some ⟨1, 1, 0⟩ }) (by decide)).2.2.2
    { success := true, summary := some ⟨1, 1, 0⟩ } rfl (by decide)).trans (by decide)

/-- C8 counterexample: the extension filter is NOT matched
case-insensitively on both sides: only the file's suffix is
lower-cased, the filter entries are compared verbatim.  With filter
`[".PNG"]` and file `a.PNG` — whose extension equals the filter entry
up to case — the source selects nothing, while the case-insensitive
selection described by the claim selects the file. -/
theorem collectFiles_filter_not_case_insensitive :
    OSS.collectFiles [⟨"a.PNG", true⟩] [".PNG"] = []
      ∧ OSS.specSelectCaseInsensitive [⟨"a.PNG", true⟩] [".PNG"] = ["a.PNG"] := by
  decide

/-- C8 (amended): with a non-empty extension filter, the selected paths
are exactly the regular files enumerated under the directory whose
LOWER-CASED extension is literally a member of the filter (so matching
is case-insensitive in the file's extension but verbatim in the filter
entries); and when no file matches, the operation returns `success:
true` with zero total/successful/failed counts and makes no outbound
call at all. -/
theorem upload_directory_selection (entries : List OSS.DirEntry) (exts : List String)
    (readable : String → Bool) (probe : Except String (List (String × String)))
    (remote : Except String OSS.OSSResult) (hne : exts ≠ []) :
    (∀ p, p ∈ OSS.collectFiles entries exts ↔
        ∃ e ∈ entries, e.path = p ∧ e.isFile = true ∧ lowerStr (pySuffix p) ∈ exts)
      ∧ (OSS.collectFiles entries exts = [] →
          OSS.upload_directory true entries exts readable probe remote
            = ({ success := true, message := some "目录中没有找到匹配的文件",
                 summary := some ⟨0, 0, 0⟩ }, [])) := by
  constructor
  · intro p
    unfold OSS.collectFiles
    simp only [List.mem_map, List.mem_filter, Bool.and_eq_true, Bool.or_eq_true,
      decide_eq_true_eq, hne, or_iff_right_iff_imp]
    constructor
    · rintro ⟨e, ⟨he, hf, hmem⟩, rfl⟩
      rcases hmem with hmem | hmem
      · exact hmem.elim
      · exact ⟨e, he, rfl, hf, hmem⟩
    · rintro ⟨e, he, rfl, hf, hmem⟩
      exact ⟨e, ⟨he, hf, Or.inr hmem⟩, rfl⟩
  · intro hempty
    unfold OSS.upload_directory
    simp [hempty]

/-- Witness for C8 (amended): a directory containing only `a.txt`,
filter `[".png"]` — a success report with zero counts and no outbound
effect. -/
theorem upload_directory_selection_witness :
    OSS.upload_directory true [⟨"a.txt", true⟩] [".png"] (fun _ => true)
        (.ok [("status", "healthy")]) (.ok { success := true })
      = ({ success := true, message := some "目录中没有找到匹配的文件",
           summary := some ⟨0, 0, 0⟩ }, []) :=
  (upload_directory_selection [⟨"a.txt", true⟩] [".png"] (fun _ => true)
    (.ok [("status", "healthy")]) (.ok { success := true }) (by decide)).2 (by decide)

end ClipForge
